import Mathlib

/-!
Verification of the CSV ingestion/normalization loader of the food-rescue
dashboard (`src/app/main_sqlite.py`) and of the employee roster script
(`src/assignment1.py`), as a shallow embedding in Lean 4.

The loader reads up to four CSV files (providers, receivers, food listings,
claims), applies per-column cleaning rules (date parsing, numeric coercion,
contact trimming, first-seen deduplication) and replaces the contents of the
corresponding SQLite tables.  The embedding models the database as explicit
state (one optional list of rows per table; `none` = table does not exist),
and models pandas cell-level parsers as executable Lean functions.
-/

namespace FoodRescue

/-! ### Cell-level parsers

`parseNum` models `pandas.to_numeric(..., errors='coerce')` on
integer-formatted cells (anything else coerces to NaN, i.e. `none`).
`pdToDatetime` models `pandas.to_datetime(..., errors='coerce')` on
ISO-formatted (`YYYY-MM-DD`) cells, validating the calendar date;
unparseable cells coerce to NaT, i.e. `none`.  `formatDate` models
`.dt.strftime('%Y-%m-%d')`.  `strStrip` models Python `str.strip()`. -/

def digitVal (c : Char) : Option Nat :=
  if c.isDigit then some (c.toNat - '0'.toNat) else none

def parseNatDigits (cs : List Char) : Option Nat :=
  if cs = [] then none
  else cs.foldl (fun acc c => acc.bind fun n => (digitVal c).map fun d => 10 * n + d) (some 0)

def parseNum (s : String) : Option Int :=
  match s.data with
  | [] => none
  | '-' :: rest => (parseNatDigits rest).map fun n => -(n : Int)
  | '+' :: rest => (parseNatDigits rest).map fun n => (n : Int)
  | cs => (parseNatDigits cs).map fun n => (n : Int)

structure CalDate where
  year : Nat
  month : Nat
  day : Nat
deriving DecidableEq, Repr

def isLeap (y : Nat) : Bool :=
  (y % 4 = 0 && !(y % 100 = 0)) || y % 400 = 0

def daysInMonth (y m : Nat) : Nat :=
  if m = 2 then (if isLeap y then 29 else 28)
  else if m = 4 ∨ m = 6 ∨ m = 9 ∨ m = 11 then 30
  else 31

def validDate (y m d : Nat) : Bool :=
  decide (1 ≤ m) && decide (m ≤ 12) && decide (1 ≤ d) && decide (d ≤ daysInMonth y m)

def pdToDatetime (s : String) : Option CalDate :=
  match s.data with
  | [y1, y2, y3, y4, '-', m1, m2, '-', d1, d2] =>
    match parseNatDigits [y1, y2, y3, y4], parseNatDigits [m1, m2], parseNatDigits [d1, d2] with
    | some y, some m, some d => if validDate y m d then some ⟨y, m, d⟩ else none
    | _, _, _ => none
  | _ => none

def pad2 (n : Nat) : String :=
  if n < 10 then "0" ++ toString n else toString n

def pad4 (n : Nat) : String :=
  if n < 10 then "000" ++ toString n
  else if n < 100 then "00" ++ toString n
  else if n < 1000 then "0" ++ toString n
  else toString n

def formatDate (d : CalDate) : String :=
  pad4 d.year ++ "-" ++ pad2 d.month ++ "-" ++ pad2 d.day

def strStrip (s : String) : String :=
  ⟨(((s.data.dropWhile Char.isWhitespace).reverse.dropWhile Char.isWhitespace).reverse)⟩

/-! ### Row types

One structure per CSV/table row shape, with the columns of the fixed schema
created by `import_csv_data`.  The sample-data insert omits the provider
`address` column, so `address` is optional. -/

structure ProviderRaw where
  provider_id : Int
  name : String
  ptype : String
  address : Option String
  city : String
  contact : String
deriving DecidableEq, Repr

structure ReceiverRaw where
  receiver_id : Int
  name : String
  rtype : String
  city : String
  contact : String
deriving DecidableEq, Repr

/-- A raw `food_listings_data.csv` row: `quantity` and `expiry_date` are the
unparsed cell texts that the cleaning step interprets. -/
structure ListingRaw where
  food_id : Int
  food_name : String
  quantity : String
  expiry_date : String
  provider_id : Int
  provider_type : String
  location : String
  food_type : String
  meal_type : String
deriving DecidableEq, Repr

/-- A cleaned/loaded `food_listings` row: `quantity` is `NULL`-able and
`expiry_date` is the reformatted ISO string. -/
structure ListingRow where
  food_id : Int
  food_name : String
  quantity : Option Int
  expiry_date : String
  provider_id : Int
  provider_type : String
  location : String
  food_type : String
  meal_type : String
deriving DecidableEq, Repr

structure ClaimRow where
  claim_id : Int
  food_id : Int
  receiver_id : Int
  status : String
  timestamp : String
deriving DecidableEq, Repr

structure AuditRow where
  operation : String
  user : String
  details : String
  ts_utc : String
deriving DecidableEq, Repr

/-! ### First-seen deduplication

Models `df.drop_duplicates(subset=['contact'], keep='first')`: keep a row
iff no earlier row has the same key. -/

def dedupFirstAux {α β : Type} [DecidableEq β] (key : α → β) : List β → List α → List α
  | _, [] => []
  | seen, x :: xs =>
    if key x ∈ seen then dedupFirstAux key seen xs
    else x :: dedupFirstAux key (key x :: seen) xs

def dedupFirst {α β : Type} [DecidableEq β] (key : α → β) (l : List α) : List α :=
  dedupFirstAux key [] l

theorem dedupFirstAux_length {α β : Type} [DecidableEq β] (key : α → β)
    (l : List α) (seen : List β) :
    (dedupFirstAux key seen l).length = ((l.map key).toFinset \ seen.toFinset).card := by
  induction l generalizing seen with
  | nil => simp [dedupFirstAux]
  | cons x xs ih =>
    simp only [dedupFirstAux, List.map_cons, List.toFinset_cons]
    by_cases h : key x ∈ seen
    · rw [if_pos h, ih, Finset.insert_sdiff_of_mem _ (List.mem_toFinset.mpr h)]
    · rw [if_neg h, List.length_cons, ih, List.toFinset_cons, Finset.sdiff_insert,
        Finset.insert_sdiff_of_not_mem _ (fun hc => h (List.mem_toFinset.mp hc))]
      by_cases hm : key x ∈ (xs.map key).toFinset \ seen.toFinset
      · rw [Finset.card_erase_of_mem hm, Finset.card_insert_of_mem hm]
        have hpos : 0 < ((xs.map key).toFinset \ seen.toFinset).card :=
          Finset.card_pos.mpr ⟨_, hm⟩
        omega
      · rw [Finset.erase_eq_of_not_mem hm, Finset.card_insert_of_not_mem hm]

theorem dedupFirst_length {α β : Type} [DecidableEq β] (key : α → β) (l : List α) :
    (dedupFirst key l).length = (l.map key).toFinset.card := by
  rw [dedupFirst, dedupFirstAux_length]
  simp

theorem dedupFirstAux_filter {α β : Type} [DecidableEq β] (key : α → β) (c : β)
    (l : List α) (seen : List β) :
    (dedupFirstAux key seen l).filter (fun a => key a = c) =
      if c ∈ seen then [] else (l.filter (fun a => key a = c)).take 1 := by
  induction l generalizing seen with
  | nil => simp [dedupFirstAux]
  | cons x xs ih =>
    simp only [dedupFirstAux]
    by_cases hx : key x ∈ seen
    · rw [if_pos hx, ih]
      by_cases hc : c ∈ seen
      · simp [hc]
      · have hxc : ¬ key x = c := fun he => hc (he ▸ hx)
        simp only [if_neg hc, List.filter_cons]
        rw [if_neg (show ¬(decide (key x = c) = true) by simp [hxc])]
    · rw [if_neg hx]
      by_cases hxc : key x = c
      · have hcs : c ∉ seen := hxc ▸ hx
        rw [List.filter_cons, if_pos (show decide (key x = c) = true by simp [hxc]), ih,
          if_pos (show c ∈ key x :: seen by simp [hxc]), if_neg hcs, List.filter_cons,
          if_pos (show decide (key x = c) = true by simp [hxc])]
        simp
      · rw [List.filter_cons, if_neg (show ¬(decide (key x = c) = true) by simp [hxc]), ih]
        have hmem : (c ∈ key x :: seen) ↔ c ∈ seen := by
          simp only [List.mem_cons]
          constructor
          · rintro (h | h)
            · exact absurd h.symm hxc
            · exact h
          · exact Or.inr
        by_cases hc : c ∈ seen
        · rw [if_pos (hmem.mpr hc), if_pos hc]
        · rw [if_neg (fun h => hc (hmem.mp h)), if_neg hc, List.filter_cons,
            if_neg (show ¬(decide (key x = c) = true) by simp [hxc])]

theorem dedupFirst_filter {α β : Type} [DecidableEq β] (key : α → β) (c : β) (l : List α) :
    (dedupFirst key l).filter (fun a => key a = c) =
      (l.filter (fun a => key a = c)).take 1 := by
  rw [dedupFirst, dedupFirstAux_filter]
  simp

/-! ### Per-entity cleaning

Translation of the cleaning block of `import_csv_data` (main_sqlite.py
lines 112-133), specialised to the columns each entity actually has:

* providers/receivers have a `contact` column (trim, then first-seen
  deduplication by contact) and neither `expiry_date` nor `quantity`;
* food listings have `expiry_date` (parse, drop unparseable rows, reformat)
  and `quantity` (parse, null negatives and unparseable values);
* claims have none of the cleaned columns, so they are copied raw. -/

def trimProvider (r : ProviderRaw) : ProviderRaw :=
  { r with contact := strStrip r.contact }

def trimReceiver (r : ReceiverRaw) : ReceiverRaw :=
  { r with contact := strStrip r.contact }

def cleanProviders (rows : List ProviderRaw) : List ProviderRaw :=
  dedupFirst (fun r => r.contact) (rows.map trimProvider)

def cleanReceivers (rows : List ReceiverRaw) : List ReceiverRaw :=
  dedupFirst (fun r => r.contact) (rows.map trimReceiver)

/-- `pd.to_numeric(..., errors='coerce')` followed by
`df.loc[df['quantity'] < 0, 'quantity'] = None`. -/
def cleanQuantity (s : String) : Option Int :=
  match parseNum s with
  | some q => if q < 0 then none else some q
  | none => none

def cleanedListing (raw : ListingRaw) (d : CalDate) : ListingRow :=
  { food_id := raw.food_id
    food_name := raw.food_name
    quantity := cleanQuantity raw.quantity
    expiry_date := formatDate d
    provider_id := raw.provider_id
    provider_type := raw.provider_type
    location := raw.location
    food_type := raw.food_type
    meal_type := raw.meal_type }

/-- Rows whose `expiry_date` fails `pd.to_datetime` are dropped
(`df.dropna(subset=['expiry_date'])`); survivors get the reformatted date
and the cleaned quantity. -/
def cleanListings (rows : List ListingRaw) : List ListingRow :=
  rows.filterMap fun raw => (pdToDatetime raw.expiry_date).map (cleanedListing raw)

/-! ### The database and the loader

The SQLite database is modelled as one optional list of rows per table;
`none` means the table does not exist (dropped / never created).  A load
batch for one entity is either an absent file, a file whose import raised
somewhere in the read/clean/insert block (carrying the rows inserted before
the exception), or a successfully parsed list of raw rows. -/

structure DB where
  providers : Option (List ProviderRaw)
  receivers : Option (List ReceiverRaw)
  food_listings : Option (List ListingRow)
  claims : Option (List ClaimRow)
  audit_log : Option (List AuditRow)
deriving DecidableEq, Repr

/-- A fresh store: the SQLite file does not exist, so no table exists. -/
def emptyDB : DB :=
  { providers := none, receivers := none, food_listings := none,
    claims := none, audit_log := none }

/-- The state right after the drop/create preamble of `import_csv_data`
(lines 38-103): all five tables exist and are empty. -/
def emptyTables : DB :=
  { providers := some [], receivers := some [], food_listings := some [],
    claims := some [], audit_log := some [] }

/-- One entity's input file, as seen by the loader loop.

* `absent`: `{table}_data.csv` is not in the data directory — the loader
  warns and skips the entity;
* `failure`: some step of the entity's try-block raised (`pd.read_csv`,
  cleaning, or an insert); `inserted` are the cleaned rows whose inserts
  executed before the exception (empty when the read itself failed);
* `rows`: the file parsed, yielding these raw rows. -/
inductive FileInput (α ρ : Type) where
  | absent : FileInput α ρ
  | failure (msg : String) (inserted : List ρ) : FileInput α ρ
  | rows (rs : List α) : FileInput α ρ
deriving DecidableEq, Repr

def FileInput.fails {α ρ : Type} : FileInput α ρ → Bool
  | .failure _ _ => true
  | _ => false

/-- The table contents the entity's block leaves behind: nothing was added
for an absent file, the partial inserts for a failing file, and the cleaned
batch for a parsed file. -/
def entityTable {α ρ : Type} (load : List α → List ρ) : FileInput α ρ → List ρ
  | .absent => []
  | .failure _ ins => ins
  | .rows rs => load rs

/-- The loader's whole input: whether the `data/` directory exists, whether
it contains any `*.csv` file, and the four per-entity files. -/
structure CSVInput where
  dirExists : Bool
  hasCSVFiles : Bool
  providers : FileInput ProviderRaw ProviderRaw
  receivers : FileInput ReceiverRaw ReceiverRaw
  food_listings : FileInput ListingRaw ListingRow
  claims : FileInput ClaimRow ClaimRow
deriving DecidableEq, Repr

/-- Result of `import_csv_data`: the returned Bool, the store it leaves
behind, and whether every connection the call opened was closed before it
returned (`True` when no connection was opened). -/
structure ImportResult where
  ok : Bool
  db : DB
  connClosed : Bool
deriving DecidableEq, Repr

/-- Shallow embedding of `import_csv_data` (main_sqlite.py lines 18-159).

The two early `return False` happen before `get_db_connection()`, so they
leave the store untouched and no connection open.  Otherwise all five
tables are dropped and recreated empty, and the entities are processed in
the fixed order providers, receivers, food_listings, claims; the first
entity whose block raises makes the function `return False` from inside the
`except` — before `conn.commit()` and `conn.close()` — leaving the tables
processed so far in their replaced state. -/
def importCSVData (inp : CSVInput) (db : DB) : ImportResult :=
  if inp.dirExists = false then ⟨false, db, true⟩
  else if inp.hasCSVFiles = false then ⟨false, db, true⟩
  else
    let pt := entityTable cleanProviders inp.providers
    if inp.providers.fails then
      ⟨false, { emptyTables with providers := some pt }, false⟩
    else
      let rt := entityTable cleanReceivers inp.receivers
      if inp.receivers.fails then
        ⟨false, { emptyTables with providers := some pt, receivers := some rt }, false⟩
      else
        let ft := entityTable cleanListings inp.food_listings
        if inp.food_listings.fails then
          let d := { emptyTables with providers := some pt, receivers := some rt,
                                      food_listings := some ft }
          ⟨false, d, false⟩
        else
          let ct := entityTable (fun rs => rs) inp.claims
          if inp.claims.fails then
            let d := { emptyTables with providers := some pt, receivers := some rt,
                                        food_listings := some ft, claims := some ct }
            ⟨false, d, false⟩
          else
            ⟨true, { providers := some pt, receivers := some rt, food_listings := some ft,
                     claims := some ct, audit_log := some [] }, true⟩

/-- All checks pass and no entity block raises. -/
def CSVInput.wellFormed (inp : CSVInput) : Prop :=
  inp.dirExists = true ∧ inp.hasCSVFiles = true ∧
  inp.providers.fails = false ∧ inp.receivers.fails = false ∧
  inp.food_listings.fails = false ∧ inp.claims.fails = false

def CSVInput.someEntityFails (inp : CSVInput) : Bool :=
  inp.providers.fails || inp.receivers.fails || inp.food_listings.fails || inp.claims.fails

theorem importCSVData_success {inp : CSVInput} (db : DB) (h : inp.wellFormed) :
    importCSVData inp db =
      ⟨true, { providers := some (entityTable cleanProviders inp.providers),
               receivers := some (entityTable cleanReceivers inp.receivers),
               food_listings := some (entityTable cleanListings inp.food_listings),
               claims := some (entityTable (fun rs => rs) inp.claims),
               audit_log := some [] }, true⟩ := by
  obtain ⟨h1, h2, hp, hr, hf, hc⟩ := h
  simp [importCSVData, h1, h2, hp, hr, hf, hc]

theorem importCSVData_providers {inp : CSVInput} (db : DB)
    (h1 : inp.dirExists = true) (h2 : inp.hasCSVFiles = true) :
    (importCSVData inp db).db.providers =
      some (entityTable cleanProviders inp.providers) := by
  simp only [importCSVData, h1, h2]
  repeat' split
  all_goals simp_all

theorem importCSVData_receivers {inp : CSVInput} (db : DB)
    (h1 : inp.dirExists = true) (h2 : inp.hasCSVFiles = true)
    (hp : inp.providers.fails = false) :
    (importCSVData inp db).db.receivers =
      some (entityTable cleanReceivers inp.receivers) := by
  simp only [importCSVData, h1, h2, hp]
  repeat' split
  all_goals simp_all

theorem importCSVData_listings {inp : CSVInput} (db : DB)
    (h1 : inp.dirExists = true) (h2 : inp.hasCSVFiles = true)
    (hp : inp.providers.fails = false) (hr : inp.receivers.fails = false) :
    (importCSVData inp db).db.food_listings =
      some (entityTable cleanListings inp.food_listings) := by
  simp only [importCSVData, h1, h2, hp, hr]
  repeat' split
  all_goals simp_all

/-! ### Bootstrap: `init_database` and the sample fallback

`init_database` (lines 161-281) runs only when the SQLite file does not
exist.  If the data directory exists and holds CSV files it calls the
loader; on loader failure — or when there is no data directory / no CSV
files — it creates the tables with `CREATE TABLE IF NOT EXISTS` (keeping
whatever contents they already have) and inserts the hardcoded sample rows
into the four core tables.  The sample provider insert omits the `address`
column. -/

def sampleProviders : List ProviderRaw :=
  [⟨1, "Restaurant A", "Restaurant", none, "New York", "+1-555-0101"⟩,
   ⟨2, "Cafe B", "Cafe", none, "Los Angeles", "+1-555-0102"⟩,
   ⟨3, "Grocery C", "Grocery", none, "Chicago", "+1-555-0103"⟩,
   ⟨4, "Bakery D", "Bakery", none, "Houston", "+1-555-0104"⟩,
   ⟨5, "Hotel E", "Hotel", none, "Phoenix", "+1-555-0105"⟩]

def sampleReceivers : List ReceiverRaw :=
  [⟨1, "Food Bank A", "Food Bank", "New York", "+1-555-0201"⟩,
   ⟨2, "Shelter B", "Shelter", "Los Angeles", "+1-555-0202"⟩,
   ⟨3, "Community C", "Community", "Chicago", "+1-555-0203"⟩,
   ⟨4, "Church D", "Church", "Houston", "+1-555-0204"⟩,
   ⟨5, "School E", "School", "Phoenix", "+1-555-0205"⟩]

def sampleListings : List ListingRow :=
  [⟨1, "Bread", some 50, "2025-01-15", 1, "Restaurant", "Kitchen A", "Bread", "Breakfast"⟩,
   ⟨2, "Rice", some 100, "2025-02-01", 2, "Cafe", "Storage B", "Grain", "Lunch"⟩,
   ⟨3, "Vegetables", some 75, "2025-01-20", 3, "Grocery", "Warehouse C", "Vegetables", "Dinner"⟩,
   ⟨4, "Fruits", some 60, "2025-01-25", 4, "Bakery", "Bakery D", "Fruits", "Snack"⟩,
   ⟨5, "Milk", some 30, "2025-01-18", 5, "Hotel", "Kitchen E", "Dairy", "Breakfast"⟩,
   ⟨6, "Cheese", some 25, "2025-01-30", 1, "Restaurant", "Kitchen A", "Dairy", "Lunch"⟩,
   ⟨7, "Pasta", some 80, "2025-02-05", 2, "Cafe", "Storage B", "Grain", "Dinner"⟩,
   ⟨8, "Meat", some 40, "2025-01-22", 3, "Grocery", "Warehouse C", "Protein", "Dinner"⟩]

def sampleClaims : List ClaimRow :=
  [⟨1, 1, 1, "Completed", "2025-01-10 10:00:00"⟩,
   ⟨2, 2, 2, "Pending", "2025-01-11 14:30:00"⟩,
   ⟨3, 3, 3, "Completed", "2025-01-12 09:15:00"⟩,
   ⟨4, 4, 4, "Cancelled", "2025-01-13 16:45:00"⟩,
   ⟨5, 5, 5, "Pending", "2025-01-14 11:20:00"⟩]

/-- The sample-data block of `init_database`: `CREATE TABLE IF NOT EXISTS`
keeps an existing table's contents (and creates a missing table empty), and
the `INSERT` statements then append the sample rows to the four core
tables; nothing is inserted into `audit_log`. -/
def fallbackSample (db : DB) : DB :=
  { providers := some (db.providers.getD [] ++ sampleProviders)
    receivers := some (db.receivers.getD [] ++ sampleReceivers)
    food_listings := some (db.food_listings.getD [] ++ sampleListings)
    claims := some (db.claims.getD [] ++ sampleClaims)
    audit_log := some (db.audit_log.getD []) }

/-- The store `init_database` builds from scratch when it goes straight to
sample data. -/
def sampleDB : DB :=
  { providers := some sampleProviders
    receivers := some sampleReceivers
    food_listings := some sampleListings
    claims := some sampleClaims
    audit_log := some [] }

structure BootEnv where
  dbFileExists : Bool
  inp : CSVInput
deriving DecidableEq, Repr

/-- Shallow embedding of `init_database` (lines 161-281).  `db` is the
store state the function starts from (the fresh `emptyDB` when the SQLite
file did not exist).

On a failed import the loader's row INSERTs sit in an implicit,
never-committed transaction on the loader's own connection —
`conn.commit()` (line 155) is reached only on the success path — so SQLite
rolls them back when that connection is finalized, and they were never
visible to the fallback's separate connection anyway.  The DROP/CREATE
preamble, executed before any DML, ran in autocommit mode and persists.
Hence the sample-data fallback after a failed import starts from the five
recreated, empty tables (`emptyTables`), not from the loader's
connection-local `ImportResult.db`. -/
def init_database (env : BootEnv) (db : DB) : DB :=
  if env.dbFileExists then db
  else if env.inp.dirExists && env.inp.hasCSVFiles then
    if (importCSVData env.inp db).ok then (importCSVData env.inp db).db
    else fallbackSample emptyTables
  else fallbackSample db

/-! ### Audit logging and the single-entity CRUD operations

`log_audit` (lines 309-315) stamps each audit row with
`datetime.now().strftime('%Y-%m-%d %H:%M:%S')` — the machine's local
wall-clock time — and stores it in the `ts_utc` column.  The clock is
passed explicitly: `localNow` is what `datetime.now()` returns,
`utcNow` what `datetime.utcnow()` would have returned at the same
instant. -/

structure Clock where
  localNow : String
  utcNow : String
deriving DecidableEq, Repr

def log_audit (clk : Clock) (operation details : String)
    (t : Option (List AuditRow)) : Option (List AuditRow) :=
  t.map fun l => l ++ [⟨operation, "streamlit", details, clk.localNow⟩]

/-- The mutating operations of the core: the eleven single-entity CRUD
actions of the page handlers (each runs its SQL through `execute_query`
and then calls `log_audit`), plus the Admin page's bulk CSV re-import
(lines 722-726), which runs `import_csv_data` and logs nothing. -/
inductive Op where
  | createListing (r : ListingRow)
  | updateListing (r : ListingRow)
  | deleteListing (food_id : Int)
  | createClaim (claim_id food_id receiver_id : Int) (status : String)
  | updateClaim (claim_id : Int) (status : String)
  | createProvider (p : ProviderRaw)
  | updateProvider (p : ProviderRaw)
  | deleteProvider (provider_id : Int)
  | createReceiver (r : ReceiverRaw)
  | updateReceiver (r : ReceiverRaw)
  | deleteReceiver (receiver_id : Int)
  | importCSV (inp : CSVInput)

def Op.isBulkImport : Op → Bool
  | .importCSV _ => true
  | _ => false

/-- State transition of one core operation.  For the CRUD actions this is
the table edit of the handler's SQL followed by its `log_audit` call; for
`updateListing`/`updateProvider`/`updateReceiver` the payload's id field is
the `WHERE` key (the id column itself is not rewritten by the `UPDATE`).
`createClaim` stamps the new claim with `datetime.now()`. -/
def step (clk : Clock) (op : Op) (db : DB) : DB :=
  match op with
  | .createListing r =>
    { db with food_listings := db.food_listings.map (fun l => l ++ [r]),
              audit_log := log_audit clk "create_listing"
                ("food_id=" ++ toString r.food_id) db.audit_log }
  | .updateListing r =>
    { db with food_listings := db.food_listings.map
                (List.map fun x => if x.food_id = r.food_id then r else x),
              audit_log := log_audit clk "update_listing"
                ("food_id=" ++ toString r.food_id) db.audit_log }
  | .deleteListing fid =>
    { db with food_listings := db.food_listings.map
                (List.filter fun x => x.food_id != fid),
              audit_log := log_audit clk "delete_listing"
                ("food_id=" ++ toString fid) db.audit_log }
  | .createClaim cid fid rid status =>
    { db with claims := db.claims.map (fun l => l ++ [⟨cid, fid, rid, status, clk.localNow⟩]),
              audit_log := log_audit clk "create_claim"
                ("claim_id=" ++ toString cid) db.audit_log }
  | .updateClaim cid status =>
    { db with claims := db.claims.map
                (List.map fun c => if c.claim_id = cid then { c with status := status } else c),
              audit_log := log_audit clk "update_claim"
                ("claim_id=" ++ toString cid ++ ", status=" ++ status) db.audit_log }
  | .createProvider p =>
    { db with providers := db.providers.map (fun l => l ++ [p]),
              audit_log := log_audit clk "create_provider"
                ("provider_id=" ++ toString p.provider_id) db.audit_log }
  | .updateProvider p =>
    { db with providers := db.providers.map
                (List.map fun x => if x.provider_id = p.provider_id then p else x),
              audit_log := log_audit clk "update_provider"
                ("provider_id=" ++ toString p.provider_id) db.audit_log }
  | .deleteProvider pid =>
    { db with providers := db.providers.map (List.filter fun x => x.provider_id != pid),
              audit_log := log_audit clk "delete_provider"
                ("provider_id=" ++ toString pid) db.audit_log }
  | .createReceiver r =>
    { db with receivers := db.receivers.map (fun l => l ++ [r]),
              audit_log := log_audit clk "create_receiver"
                ("receiver_id=" ++ toString r.receiver_id) db.audit_log }
  | .updateReceiver r =>
    { db with receivers := db.receivers.map
                (List.map fun x => if x.receiver_id = r.receiver_id then r else x),
              audit_log := log_audit clk "update_receiver"
                ("receiver_id=" ++ toString r.receiver_id) db.audit_log }
  | .deleteReceiver rid =>
    { db with receivers := db.receivers.map (List.filter fun x => x.receiver_id != rid),
              audit_log := log_audit clk "delete_receiver"
                ("receiver_id=" ++ toString rid) db.audit_log }
  | .importCSV inp => (importCSVData inp db).db

/-! ### Connection scoping of the query helpers

`run_query` and `execute_query` (lines 283-307) open a fresh connection and
close it in a `finally` block, so the close runs whether the body returns
or raises.  The body is passed in as a function that either produces a
result or raises.  The second component records whether the connection the
call opened was closed before it returned. -/

inductive Outcome (α : Type) where
  | ok (a : α) : Outcome α
  | raised (e : String) : Outcome α
deriving DecidableEq, Repr

/-- `run_query`: `pd.read_sql_query` inside `try`, `conn.close()` inside
`finally`. -/
def run_query (body : DB → Outcome (List (List String))) (db : DB) :
    Outcome (List (List String)) × Bool :=
  match body db with
  | .ok f => (.ok f, true)
  | .raised e => (.raised e, true)

/-- `execute_query`: `cursor.execute` + `conn.commit()` inside `try`
(returning the new store and the rowcount), `conn.close()` inside
`finally`. -/
def execute_query (body : DB → Outcome (DB × Nat)) (db : DB) :
    Outcome (DB × Nat) × Bool :=
  match body db with
  | .ok r => (.ok r, true)
  | .raised e => (.raised e, true)

end FoodRescue

namespace Roster

/-! ### The employee roster script (`src/assignment1.py`)

The roster is a Python dict from employee id to a record of name, age,
department and salary, modelled as an insertion-ordered association list.
Python floats (salary) are modelled as rationals. -/

structure EmpInfo where
  name : String
  age : Int
  department : String
  salary : Rat
deriving DecidableEq, Repr

abbrev EmpDict := List (Int × EmpInfo)

/-- The two `print` outcomes of `add_employee`. -/
inductive AddMsg where
  | added (id : Int) (name : String)
  | alreadyExists (id : Int)
deriving DecidableEq, Repr

def containsId (d : EmpDict) (id : Int) : Bool :=
  d.any fun p => p.1 = id

/-- Shallow embedding of `Employee.add_employee` (assignment1.py lines
5-10): insert only when the id is not yet a key, otherwise leave the dict
alone and report that the id exists. -/
def add_employee (d : EmpDict) (id : Int) (name : String) (age : Int)
    (department : String) (salary : Rat) : EmpDict × AddMsg :=
  if containsId d id then (d, .alreadyExists id)
  else (d ++ [(id, ⟨name, age, department, salary⟩)], .added id name)

end Roster

namespace FoodRescue

/-! ### Concrete inputs used by witnesses and counterexamples -/

def demoProviders : List ProviderRaw :=
  [⟨1, "A", "Restaurant", some "1 Main St", "New York", "X "⟩,
   ⟨2, "B", "Cafe", some "2 Main St", "Los Angeles", "X"⟩,
   ⟨3, "C", "Grocery", some "3 Main St", "Chicago", "Y"⟩]

def demoReceivers : List ReceiverRaw :=
  [⟨1, "R1", "Shelter", "New York", "Z"⟩,
   ⟨2, "R2", "Church", "Chicago", "Z"⟩]

def goodListing : ListingRaw :=
  ⟨1, "Bread", "50", "2025-01-15", 1, "Restaurant", "Kitchen A", "Bread", "Breakfast"⟩

def badExpiryListing : ListingRaw :=
  ⟨2, "Rice", "10", "not-a-date", 2, "Cafe", "Storage B", "Grain", "Lunch"⟩

def badQtyListing : ListingRaw :=
  ⟨3, "Milk", "-5", "2025-01-18", 5, "Hotel", "Kitchen E", "Dairy", "Breakfast"⟩

def badBothListing : ListingRaw :=
  ⟨9, "Mystery", "-5", "not-a-date", 1, "Restaurant", "Kitchen A", "Misc", "Dinner"⟩

def demoClaims : List ClaimRow :=
  [⟨1, 1, 1, "Completed", "2025-01-10 10:00:00"⟩]

/-- All four entity files present and parsed. -/
def inpDemoFull : CSVInput :=
  ⟨true, true, .rows demoProviders, .rows demoReceivers,
   .rows [goodListing, badExpiryListing, badQtyListing], .rows demoClaims⟩

/-- Data directory present with CSV files, but none of the four expected
entity files. -/
def inpNoFiles : CSVInput :=
  ⟨true, true, .absent, .absent, .absent, .absent⟩

/-- The providers file raises on read before any insert. -/
def inpProvidersUnreadable : CSVInput :=
  ⟨true, true, .failure "providers_data.csv unreadable" [], .absent, .absent, .absent⟩

/-- Providers import fine, then the receivers file raises on read. -/
def inpReceiversFail : CSVInput :=
  ⟨true, true, .rows demoProviders, .failure "receivers_data.csv unreadable" [],
   .absent, .absent⟩

/-- Only the food-listings file is present, holding one row with an
unparseable expiry date and negative quantity. -/
def inpBadListing : CSVInput :=
  ⟨true, true, .absent, .absent, .rows [badBothListing], .absent⟩

def demoAudit : AuditRow :=
  ⟨"create_listing", "streamlit", "food_id=1", "2025-05-01 09:00:00"⟩

def dbWithAudit : DB := { emptyTables with audit_log := some [demoAudit] }

/-- A clock in a UTC+5:30 timezone: `datetime.now()` and
`datetime.utcnow()` differ. -/
def demoClock : Clock := ⟨"2025-06-01 10:00:00", "2025-06-01 04:30:00"⟩

def demoProvider7 : ProviderRaw :=
  ⟨7, "Deli G", "Deli", some "5th Ave", "New York", "+1-555-0777"⟩

/-! ### C1 -/

/-- C1: for every Provider or Receiver input batch, after cleaning the
row count equals the number of distinct post-trim contact values, and for
each contact value the surviving rows are exactly the first (trimmed)
input row bearing that contact — later rows sharing the contact are
absent.  The loaded `providers`/`receivers` tables hold exactly the
cleaned batch. -/
theorem provider_receiver_first_seen_dedup :
    (∀ rows : List ProviderRaw,
      (cleanProviders rows).length =
        ((rows.map fun r => strStrip r.contact).toFinset).card) ∧
    (∀ (rows : List ProviderRaw) (c : String),
      (cleanProviders rows).filter (fun r => r.contact = c) =
        ((rows.map trimProvider).filter (fun r => r.contact = c)).take 1) ∧
    (∀ rows : List ReceiverRaw,
      (cleanReceivers rows).length =
        ((rows.map fun r => strStrip r.contact).toFinset).card) ∧
    (∀ (rows : List ReceiverRaw) (c : String),
      (cleanReceivers rows).filter (fun r => r.contact = c) =
        ((rows.map trimReceiver).filter (fun r => r.contact = c)).take 1) ∧
    (∀ (inp : CSVInput) (db : DB) (rs : List ProviderRaw),
      inp.dirExists = true → inp.hasCSVFiles = true →
      inp.providers = .rows rs →
      (importCSVData inp db).db.providers = some (cleanProviders rs)) ∧
    (∀ (inp : CSVInput) (db : DB) (rs : List ReceiverRaw),
      inp.dirExists = true → inp.hasCSVFiles = true →
      inp.providers.fails = false → inp.receivers = .rows rs →
      (importCSVData inp db).db.receivers = some (cleanReceivers rs)) := by
  refine ⟨?_, ?_, ?_, ?_, ?_, ?_⟩
  · intro rows
    rw [cleanProviders, dedupFirst_length, List.map_map]
    rfl
  · intro rows c
    exact dedupFirst_filter (fun r => r.contact) c (rows.map trimProvider)
  · intro rows
    rw [cleanReceivers, dedupFirst_length, List.map_map]
    rfl
  · intro rows c
    exact dedupFirst_filter (fun r => r.contact) c (rows.map trimReceiver)
  · intro inp db rs h1 h2 hrows
    have h := importCSVData_providers db h1 h2
    rw [hrows] at h
    exact h
  · intro inp db rs h1 h2 hp hrows
    have h := importCSVData_receivers db h1 h2 hp
    rw [hrows] at h
    exact h

/-- C1 witness: evaluated on a concrete batch with a duplicated post-trim
contact. -/
theorem provider_receiver_first_seen_dedup_witness :
    ((cleanProviders demoProviders).length =
      ((demoProviders.map fun r => strStrip r.contact).toFinset).card) ∧
    ((cleanProviders demoProviders).filter (fun r => r.contact = "X") =
      ((demoProviders.map trimProvider).filter (fun r => r.contact = "X")).take 1) ∧
    ((importCSVData inpDemoFull emptyDB).db.providers =
      some (cleanProviders demoProviders)) ∧
    ((importCSVData inpDemoFull emptyDB).db.receivers =
      some (cleanReceivers demoReceivers)) :=
  ⟨provider_receiver_first_seen_dedup.1 demoProviders,
   provider_receiver_first_seen_dedup.2.1 demoProviders "X",
   provider_receiver_first_seen_dedup.2.2.2.2.1 inpDemoFull emptyDB demoProviders rfl rfl rfl,
   provider_receiver_first_seen_dedup.2.2.2.2.2 inpDemoFull emptyDB demoReceivers rfl rfl rfl rfl⟩

/-! ### C2 -/

/-- C2: every row in the loaded `food_listings` table stems from an input
row whose expiry date parsed successfully; an input row whose expiry date
fails to parse contributes nothing to the batch (removing it changes
nothing), and the loaded table is exactly the cleaned batch. -/
theorem listings_unparseable_expiry_dropped :
    (∀ (rows : List ListingRaw) (r : ListingRow), r ∈ cleanListings rows →
      ∃ raw ∈ rows, ∃ d : CalDate,
        pdToDatetime raw.expiry_date = some d ∧ r = cleanedListing raw d) ∧
    (∀ (pre post : List ListingRaw) (bad : ListingRaw),
      pdToDatetime bad.expiry_date = none →
      cleanListings (pre ++ bad :: post) = cleanListings (pre ++ post)) ∧
    (∀ (inp : CSVInput) (db : DB) (rows : List ListingRaw),
      inp.dirExists = true → inp.hasCSVFiles = true →
      inp.providers.fails = false → inp.receivers.fails = false →
      inp.food_listings = .rows rows →
      (importCSVData inp db).db.food_listings = some (cleanListings rows)) := by
  refine ⟨?_, ?_, ?_⟩
  · intro rows r hr
    rw [cleanListings, List.mem_filterMap] at hr
    obtain ⟨raw, hraw, hmap⟩ := hr
    rw [Option.map_eq_some'] at hmap
    obtain ⟨d, hd, hrd⟩ := hmap
    exact ⟨raw, hraw, d, hd, hrd.symm⟩
  · intro pre post bad h
    have hnone : (pdToDatetime bad.expiry_date).map (cleanedListing bad) = none := by
      rw [h]
      rfl
    rw [cleanListings, cleanListings, List.filterMap_append, List.filterMap_append,
      List.filterMap_cons, hnone]
  · intro inp db rows h1 h2 hp hr hrows
    have h := importCSVData_listings db h1 h2 hp hr
    rw [hrows] at h
    exact h

/-- C2 witness: a concrete batch where the second row's expiry date fails
to parse. -/
theorem listings_unparseable_expiry_dropped_witness :
    (cleanListings ([goodListing] ++ badExpiryListing :: []) =
      cleanListings ([goodListing] ++ [])) ∧
    ((importCSVData inpDemoFull emptyDB).db.food_listings =
      some (cleanListings [goodListing, badExpiryListing, badQtyListing])) :=
  ⟨listings_unparseable_expiry_dropped.2.1 [goodListing] [] badExpiryListing rfl,
   listings_unparseable_expiry_dropped.2.2 inpDemoFull emptyDB
     [goodListing, badExpiryListing, badQtyListing] rfl rfl rfl rfl rfl⟩

/-! ### C3 -/

/-- C3 counterexample: the claim says a row whose quantity fails to parse
or is negative is never dropped, but a row whose expiry date also fails to
parse is dropped from the loaded table entirely: loading a batch holding
only `badBothListing` (quantity `-5`, expiry `not-a-date`) succeeds and
yields an empty `food_listings` table. -/
theorem listing_negative_quantity_row_dropped :
    parseNum badBothListing.quantity = some (-5) ∧
    (importCSVData inpBadListing emptyDB).ok = true ∧
    (importCSVData inpBadListing emptyDB).db.food_listings = some [] := by
  refine ⟨rfl, rfl, rfl⟩

/-- C3 amended: provided its expiry date parses successfully, a FoodListing
input row whose quantity fails to parse as a number or parses to a negative
number is retained in the cleaned batch with quantity absent, its expiry
normalized to ISO format, and all other fields unchanged. -/
theorem listing_bad_quantity_nulled (rows : List ListingRaw) (raw : ListingRaw)
    (d : CalDate) (hmem : raw ∈ rows)
    (hd : pdToDatetime raw.expiry_date = some d)
    (hq : parseNum raw.quantity = none ∨
          ∃ q : Int, parseNum raw.quantity = some q ∧ q < 0) :
    cleanedListing raw d ∈ cleanListings rows ∧
    (cleanedListing raw d).quantity = none ∧
    (cleanedListing raw d).food_id = raw.food_id ∧
    (cleanedListing raw d).food_name = raw.food_name ∧
    (cleanedListing raw d).expiry_date = formatDate d ∧
    (cleanedListing raw d).provider_id = raw.provider_id ∧
    (cleanedListing raw d).provider_type = raw.provider_type ∧
    (cleanedListing raw d).location = raw.location ∧
    (cleanedListing raw d).food_type = raw.food_type ∧
    (cleanedListing raw d).meal_type = raw.meal_type := by
  refine ⟨?_, ?_, rfl, rfl, rfl, rfl, rfl, rfl, rfl, rfl⟩
  · rw [cleanListings, List.mem_filterMap]
    exact ⟨raw, hmem, by rw [hd]; rfl⟩
  · show cleanQuantity raw.quantity = none
    rcases hq with h | ⟨q, hq, hneg⟩
    · simp [cleanQuantity, h]
    · simp [cleanQuantity, hq, hneg]

/-- C3 witness: a concrete row with quantity `-5` and a valid expiry date
is kept with quantity nulled. -/
theorem listing_bad_quantity_nulled_witness :
    cleanedListing badQtyListing ⟨2025, 1, 18⟩ ∈
      cleanListings [goodListing, badExpiryListing, badQtyListing] ∧
    (cleanedListing badQtyListing ⟨2025, 1, 18⟩).quantity = none ∧
    (cleanedListing badQtyListing ⟨2025, 1, 18⟩).food_name = badQtyListing.food_name :=
  have h := listing_bad_quantity_nulled [goodListing, badExpiryListing, badQtyListing]
    badQtyListing ⟨2025, 1, 18⟩ (by decide) rfl
    (Or.inr ⟨-5, rfl, by decide⟩)
  ⟨h.1, h.2.1, h.2.2.2.1⟩

/-! ### C4 -/

/-- C4 counterexample: the claim says no core operation, including the
loader's bulk replace, ever deletes an existing audit-log row; but the
bulk re-import drops and recreates `audit_log` (line 42), so an audit row
present before a successful re-import is gone afterwards. -/
theorem audit_rows_deleted_by_bulk_import :
    dbWithAudit.audit_log = some [demoAudit] ∧
    (step demoClock (.importCSV inpNoFiles) dbWithAudit).audit_log = some [] := by
  exact ⟨rfl, rfl⟩

/-- C4 amended: every core operation other than the loader's bulk replace
only appends to the audit log — all rows present before are still present,
unmodified and in order, afterwards; the bulk replace, however, drops and
recreates `audit_log`, deleting every existing audit row. -/
theorem audit_append_only_outside_bulk_import (clk : Clock) (op : Op) (db : DB)
    (h : op.isBulkImport = false) :
    ∃ e : AuditRow, (step clk op db).audit_log = db.audit_log.map fun l => l ++ [e] := by
  cases op with
  | createListing r => exact ⟨_, rfl⟩
  | updateListing r => exact ⟨_, rfl⟩
  | deleteListing fid => exact ⟨_, rfl⟩
  | createClaim cid fid rid status => exact ⟨_, rfl⟩
  | updateClaim cid status => exact ⟨_, rfl⟩
  | createProvider p => exact ⟨_, rfl⟩
  | updateProvider p => exact ⟨_, rfl⟩
  | deleteProvider pid => exact ⟨_, rfl⟩
  | createReceiver r => exact ⟨_, rfl⟩
  | updateReceiver r => exact ⟨_, rfl⟩
  | deleteReceiver rid => exact ⟨_, rfl⟩
  | importCSV inp => exact absurd h (by simp [Op.isBulkImport])

/-- C4 amended witness: deleting provider 3 appends one audit entry to the
existing log. -/
theorem audit_append_only_outside_bulk_import_witness :
    Op.isBulkImport (.deleteProvider 3) = false ∧
    ∃ e : AuditRow, (step demoClock (.deleteProvider 3) dbWithAudit).audit_log =
      dbWithAudit.audit_log.map fun l => l ++ [e] :=
  ⟨rfl, audit_append_only_outside_bulk_import demoClock (.deleteProvider 3) dbWithAudit rfl⟩

/-! ### C5 -/

/-- C5: if an entity's cleaning/insertion block raises, the loader returns
False immediately — the entities after the failing one are not processed
(their tables stay as freshly created, empty, whatever their input files
hold) — and the tables already replaced earlier in the run keep their
replaced contents. -/
theorem loader_abort_keeps_earlier_tables (inp : CSVInput) (db : DB)
    (h1 : inp.dirExists = true) (h2 : inp.hasCSVFiles = true) :
    (inp.providers.fails = true →
      importCSVData inp db =
        ⟨false, { emptyTables with
                  providers := some (entityTable cleanProviders inp.providers) },
         false⟩) ∧
    (inp.providers.fails = false → inp.receivers.fails = true →
      importCSVData inp db =
        ⟨false, { emptyTables with
                  providers := some (entityTable cleanProviders inp.providers),
                  receivers := some (entityTable cleanReceivers inp.receivers) },
         false⟩) ∧
    (inp.providers.fails = false → inp.receivers.fails = false →
     inp.food_listings.fails = true →
      importCSVData inp db =
        ⟨false, { emptyTables with
                  providers := some (entityTable cleanProviders inp.providers),
                  receivers := some (entityTable cleanReceivers inp.receivers),
                  food_listings := some (entityTable cleanListings inp.food_listings) },
         false⟩) ∧
    (inp.providers.fails = false → inp.receivers.fails = false →
     inp.food_listings.fails = false → inp.claims.fails = true →
      importCSVData inp db =
        ⟨false, { emptyTables with
                  providers := some (entityTable cleanProviders inp.providers),
                  receivers := some (entityTable cleanReceivers inp.receivers),
                  food_listings := some (entityTable cleanListings inp.food_listings),
                  claims := some (entityTable (fun rs => rs) inp.claims) },
         false⟩) := by
  refine ⟨?_, ?_, ?_, ?_⟩ <;> intros <;> simp [importCSVData, h1, h2, *]

/-- C5 witness: providers import, then the receivers file fails to read;
the run reports failure, the providers table keeps its replaced contents
and the remaining tables stay empty. -/
theorem loader_abort_keeps_earlier_tables_witness :
    importCSVData inpReceiversFail emptyDB =
      ⟨false, { emptyTables with
                providers := some (entityTable cleanProviders inpReceiversFail.providers),
                receivers := some (entityTable cleanReceivers inpReceiversFail.receivers) },
       false⟩ :=
  (loader_abort_keeps_earlier_tables inpReceiversFail emptyDB rfl rfl).2.1 rfl rfl

/-! ### C6 -/

/-- C6: with no pre-existing store, whenever the input directory is
absent, contains no CSV files, or ingestion is attempted and fails, the
bootstrap populates the store with exactly the fixed sample dataset —
5 providers, 5 receivers, 8 food listings and 5 claims with the hardcoded
values, and an empty audit log.  On a failed import only the autocommitted
empty recreated tables are durable (the loader's uncommitted inserts roll
back with its connection), so the fallback's INSERTs land on empty tables
in every case. -/
theorem bootstrap_fallback_exact_sample (env : BootEnv)
    (h0 : env.dbFileExists = false)
    (h : env.inp.dirExists = false ∨ env.inp.hasCSVFiles = false ∨
         (importCSVData env.inp emptyDB).ok = false) :
    init_database env emptyDB = sampleDB ∧
    sampleProviders.length = 5 ∧ sampleReceivers.length = 5 ∧
    sampleListings.length = 8 ∧ sampleClaims.length = 5 := by
  refine ⟨?_, rfl, rfl, rfl, rfl⟩
  rcases h with h | h | h
  · simp [init_database, h0, h, fallbackSample, emptyDB, sampleDB]
  · simp [init_database, h0, h, fallbackSample, emptyDB, sampleDB]
  · cases hd : env.inp.dirExists
    · simp [init_database, h0, hd, fallbackSample, emptyDB, sampleDB]
    · cases hcs : env.inp.hasCSVFiles
      · simp [init_database, h0, hd, hcs, fallbackSample, emptyDB, sampleDB]
      · simp [init_database, h0, hd, hcs, h, fallbackSample, emptyTables, sampleDB]

/-- C6 witness: once with no data directory at all, and once with an
ingestion attempt that fails at the receivers file after providers were
processed. -/
theorem bootstrap_fallback_exact_sample_witness :
    init_database ⟨false, ⟨false, false, .absent, .absent, .absent, .absent⟩⟩ emptyDB =
      sampleDB ∧
    (importCSVData inpReceiversFail emptyDB).ok = false ∧
    init_database ⟨false, inpReceiversFail⟩ emptyDB = sampleDB :=
  ⟨(bootstrap_fallback_exact_sample
      ⟨false, ⟨false, false, .absent, .absent, .absent, .absent⟩⟩ rfl (Or.inl rfl)).1,
   rfl,
   (bootstrap_fallback_exact_sample
      ⟨false, inpReceiversFail⟩ rfl (Or.inr (Or.inr rfl))).1⟩

/-! ### C7 -/

/-- C7: for well-formed input (directory and CSV files present, no entity
block raises), the load succeeds, and running it a second time over the
same input leaves the store with contents identical to those after the
first run — drop-and-recreate precedes every insert, so the result is
independent of the prior store state. -/
theorem loader_idempotent (inp : CSVInput) (db : DB) (h : inp.wellFormed) :
    (importCSVData inp db).ok = true ∧
    (importCSVData inp (importCSVData inp db).db).db = (importCSVData inp db).db := by
  constructor
  · rw [importCSVData_success db h]
  · rw [importCSVData_success (importCSVData inp db).db h, importCSVData_success db h]

/-- C7 witness: a full concrete input loaded twice. -/
theorem loader_idempotent_witness :
    (importCSVData inpDemoFull emptyDB).ok = true ∧
    (importCSVData inpDemoFull (importCSVData inpDemoFull emptyDB).db).db =
      (importCSVData inpDemoFull emptyDB).db :=
  loader_idempotent inpDemoFull emptyDB ⟨rfl, rfl, rfl, rfl, rfl, rfl⟩

/-! ### C8 -/

/-- C8 counterexample: the claim says no operation returns while leaving
its connection to the store open; but when an entity's import block raises,
`import_csv_data` returns False from inside the `except` without executing
`conn.close()`, leaving the connection it opened open. -/
theorem loader_failure_leaves_connection_open :
    (importCSVData inpProvidersUnreadable emptyDB).ok = false ∧
    (importCSVData inpProvidersUnreadable emptyDB).connClosed = false := by
  exact ⟨rfl, rfl⟩

/-- C8 amended: `run_query` and `execute_query` close their connection on
every path, success or raise (`finally`); `import_csv_data` closes its
connection exactly when no entity block raises — on an import failure it
returns with the connection still open. -/
theorem query_connections_scoped :
    (∀ (body : DB → Outcome (List (List String))) (db : DB),
      (run_query body db).2 = true) ∧
    (∀ (body : DB → Outcome (DB × Nat)) (db : DB),
      (execute_query body db).2 = true) ∧
    (∀ (inp : CSVInput) (db : DB), inp.dirExists = true → inp.hasCSVFiles = true →
      ((importCSVData inp db).connClosed = false ↔ inp.someEntityFails = true)) := by
  refine ⟨?_, ?_, ?_⟩
  · intro body db
    cases hb : body db <;> simp [run_query, hb]
  · intro body db
    cases hb : body db <;> simp [execute_query, hb]
  · intro inp db h1 h2
    cases hp : inp.providers.fails <;> cases hr : inp.receivers.fails <;>
      cases hf : inp.food_listings.fails <;> cases hc : inp.claims.fails <;>
      simp [importCSVData, CSVInput.someEntityFails, h1, h2, hp, hr, hf, hc]

/-- C8 amended witness: the loader's connection stays open exactly because
an entity failed on this concrete input. -/
theorem query_connections_scoped_witness :
    (importCSVData inpProvidersUnreadable emptyDB).connClosed = false ↔
      inpProvidersUnreadable.someEntityFails = true :=
  query_connections_scoped.2.2 inpProvidersUnreadable emptyDB rfl rfl

/-! ### C9 -/

/-- C9 (code-bug exhibit): a successful single-entity mutating operation
appends exactly one audit entry and the bulk replace appends none, but the
entry's `ts_utc` value is `datetime.now()` — the local wall-clock time —
not the UTC time of the operation: on a UTC+5:30 machine the stored
timestamp differs from UTC. -/
theorem audit_timestamp_is_local_not_utc :
    (step demoClock (.createProvider demoProvider7) emptyTables).audit_log =
      some [⟨"create_provider", "streamlit", "provider_id=7", demoClock.localNow⟩] ∧
    demoClock.localNow ≠ demoClock.utcNow ∧
    (step demoClock (.importCSV inpNoFiles) emptyTables).audit_log = some [] := by
  refine ⟨by decide, by decide, rfl⟩

end FoodRescue

namespace Roster

/-! ### C10 -/

/-- C10: calling `add_employee` with an id already present in the mapping
leaves the mapping completely unchanged — nothing is overwritten, added or
removed — and the operation only reports that the id already exists. -/
theorem add_employee_existing_id_unchanged (d : EmpDict) (id : Int)
    (name : String) (age : Int) (department : String) (salary : Rat)
    (h : containsId d id = true) :
    (add_employee d id name age department salary).1 = d ∧
    (add_employee d id name age department salary).2 = AddMsg.alreadyExists id := by
  rw [add_employee, if_pos h]
  exact ⟨rfl, rfl⟩

/-- C10 witness: adding id 1 to a roster already holding id 1. -/
theorem add_employee_existing_id_unchanged_witness :
    containsId [(1, ⟨"Alice", 30, "HR", 100⟩)] 1 = true ∧
    (add_employee [(1, ⟨"Alice", 30, "HR", 100⟩)] 1 "Bob" 25 "IT" 50).1 =
      [(1, ⟨"Alice", 30, "HR", 100⟩)] ∧
    (add_employee [(1, ⟨"Alice", 30, "HR", 100⟩)] 1 "Bob" 25 "IT" 50).2 =
      AddMsg.alreadyExists 1 :=
  have h := add_employee_existing_id_unchanged
    [(1, ⟨"Alice", 30, "HR", 100⟩)] 1 "Bob" 25 "IT" 50 (by decide)
  ⟨by decide, h.1, h.2⟩

end Roster
